import Mathlib

/-!
Verification development for the SDF_TO_PDBQT batch conversion pipeline.

The Python sources are shallowly embedded: each external `subprocess.run`
call is an interaction with an oracle environment (`Nat → CallEffect`)
that yields the call's outcome (exit code and stderr text, or a wall-clock
timeout) together with the sizes of the record's scratch file and target
artifact after the call.  File sizes are `Option Nat` (`none` = file
absent).  The per-record pipelines of `sdf_to_pdbqt_converter.py`
(`convert_single_file`, lines 164-277) and of `worker.py`
(`convert_single_file`, lines 13-81) are embedded as pure functions that
also record the trace of external calls issued (with their wall-clock
timeout budgets) and the final file sizes.  The progress monitor
(`progress_monitor`, lines 279-341), the worker loop (`worker_process`,
lines 343-357), the batch-completion check (`check_batch_completion`,
lines 144-162) and the driver skeleton of `main` (lines 403-527, in the
shipped configuration `TEST_MODE = False`, `PROCESS_ALL_BATCHES = True`)
are embedded likewise.  Elapsed-time bookkeeping (the `processing_time`
component of the Python result tuples and the rate/ETA arithmetic of the
monitor) is dropped: no claim refers to it.
-/

namespace SDF2PDBQT

/-- Outcome of one `subprocess.run` invocation: a completed process with
its exit code and stderr text, or a `subprocess.TimeoutExpired`. -/
inductive ProcResult where
  | exit (returncode : Int) (stderr : String)
  | timedOut
deriving DecidableEq

/-- Effect of one external call, as seen by the Python code afterwards:
the process outcome and the sizes (`none` = absent) of the record's
scratch `temp_3d_file` and of its target `output_file` after the call. -/
structure CallEffect where
  res : ProcResult
  tempAfter : Option Nat
  outAfter : Option Nat
deriving DecidableEq

/-- The external calls the pipelines can issue, tagged with the
wall-clock timeout (seconds) passed to `subprocess.run`. -/
inductive ExtCall where
  | gen3D (timeoutSec : Nat)
  | build (timeoutSec : Nat)
  | minimizeSD (steps timeoutSec : Nat)
  | minimizeCG (steps timeoutSec : Nat)
  | prepLigand (timeoutSec : Nat)
  | obabelPdbqt (timeoutSec : Nat)
deriving DecidableEq

/-- The components of the Python result tuple
`(success, input_file, error_message, processing_time, process_id)` that
the rest of the program inspects: the boolean and the error message. -/
structure PyResult where
  success : Bool
  errorMsg : Option String
deriving DecidableEq

/-- Full observable outcome of one embedded pipeline invocation: the
result tuple, the trace of external calls issued, and the final sizes of
the scratch file and the target artifact. -/
structure ConvOutput where
  result : PyResult
  trace : List ExtCall
  tempFinal : Option Nat
  outFinal : Option Nat
deriving DecidableEq

/-- Python `output_file.exists() and output_file.stat().st_size > 0`. -/
def sizePos : Option Nat → Bool
  | some n => decide (0 < n)
  | none => false

/-- Python `result.stderr.strip() if result.stderr else 'Error'`
(an absent/empty stderr string is falsy in Python). -/
def stderrOrError (s : String) : String :=
  if s = "" then "Error" else s.trim

/-- One Stage-2 `obminimize` sub-step of `convert_single_file`: method
(`-sd` or `-cg`), iteration count, `subprocess.run` timeout, and the
error-message label used when the sub-step exits non-zero. -/
structure MinCmd where
  isSD : Bool
  steps : Nat
  timeoutSec : Nat
  label : String
deriving DecidableEq

/-- The `ExtCall` issued by a minimization sub-step. -/
def MinCmd.call (c : MinCmd) : ExtCall :=
  if c.isSD then ExtCall.minimizeSD c.steps c.timeoutSec
  else ExtCall.minimizeCG c.steps c.timeoutSec

/-- Stage-2 sub-steps chosen by `sdf_to_pdbqt_converter.py` lines
216-243: `if strategy == "fast" ... elif "balanced" ... elif "thorough"`,
with no `else` branch — any other strategy tag selects no sub-step. -/
def converterMinCmds (strategy : String) : List MinCmd :=
  if strategy = "fast" then
    [⟨false, 500, 180, "Step 2 (fast min): "⟩]
  else if strategy = "balanced" then
    [⟨true, 500, 180, "Step 2a (SD): "⟩, ⟨false, 1000, 300, "Step 2b (CG): "⟩]
  else if strategy = "thorough" then
    [⟨true, 1000, 300, "Step 2a (SD): "⟩, ⟨false, 2000, 300, "Step 2b (CG): "⟩]
  else []

/-- Stage-2 sub-steps chosen by `worker.py` lines 44-52: `if strategy ==
"fast" ... elif "thorough" ... else` — the `else` branch is "balanced",
so any unknown tag runs the balanced sequence.  Every sub-step there runs
with `timeout=300` (line 55); sub-step failures are logged, not
labelled. -/
def workerMinCmds (strategy : String) : List MinCmd :=
  if strategy = "fast" then
    [⟨false, 500, 300, ""⟩]
  else if strategy = "thorough" then
    [⟨true, 1000, 300, ""⟩, ⟨false, 2000, 300, ""⟩]
  else
    [⟨true, 500, 300, ""⟩, ⟨false, 1000, 300, ""⟩]

/-- Intermediate result of running a list of Stage-2 sub-steps: either
control continues (next oracle index, accumulated trace, current file
sizes) or the pipeline returned early with a finished output. -/
inductive Step2Res where
  | cont (k : Nat) (trace : List ExtCall) (temp out : Option Nat)
  | abort (o : ConvOutput)
deriving DecidableEq

/-- Stage 2 of `sdf_to_pdbqt_converter.py` (lines 216-243): run the
sub-steps in order; a `TimeoutExpired` propagates to the outer handler
(line 274, reason "Processing timeout"); a non-zero exit returns
`(False, ..., label + stderr.strip(), ...)`.  No cleanup of the scratch
file happens on these early returns. -/
def convStep2 (env : Nat → CallEffect) :
    List MinCmd → Nat → List ExtCall → Option Nat → Option Nat → Step2Res
  | [], k, tr, temp, out => Step2Res.cont k tr temp out
  | c :: cs, k, tr, temp, out =>
    let e := env k
    let tr2 := tr ++ [c.call]
    match e.res with
    | ProcResult.timedOut =>
        Step2Res.abort ⟨⟨false, some "Processing timeout"⟩, tr2, e.tempAfter, e.outAfter⟩
    | ProcResult.exit rc err =>
        if rc = 0 then convStep2 env cs (k + 1) tr2 e.tempAfter e.outAfter
        else
          Step2Res.abort ⟨⟨false, some (c.label ++ err.trim)⟩, tr2, e.tempAfter, e.outAfter⟩

/-- Lines 263-273 of `sdf_to_pdbqt_converter.py`: unlink the scratch file
(ignoring `FileNotFoundError`), then the final artifact check. -/
def convFinish (tr : List ExtCall) (out : Option Nat) : ConvOutput :=
  if sizePos out then ⟨⟨true, none⟩, tr, none, out⟩
  else ⟨⟨false, some "Final PDBQT file not created or is empty."⟩, tr, none, out⟩

/-- Stage 3 of `sdf_to_pdbqt_converter.py` (lines 245-273): try
`prepare_ligand4.py` (timeout 120; `TimeoutExpired`/`FileNotFoundError`
are swallowed, falling through to the Open Babel fallback); if it did not
produce a non-empty artifact, run the `obabel` PDBQT fallback (timeout
120; a timeout there propagates to the outer handler, a non-zero exit
returns the Step 3 failure without cleanup); then cleanup and the final
check. -/
def convStep3 (env : Nat → CallEffect) (k : Nat) (tr : List ExtCall)
    (temp out : Option Nat) : ConvOutput :=
  let e := env k
  let tr1 := tr ++ [ExtCall.prepLigand 120]
  let py2ok : Bool :=
    match e.res with
    | ProcResult.exit rc _ => decide (rc = 0) && sizePos e.outAfter
    | ProcResult.timedOut => false
  if py2ok then convFinish tr1 e.outAfter
  else
    let e2 := env (k + 1)
    let tr2 := tr1 ++ [ExtCall.obabelPdbqt 120]
    match e2.res with
    | ProcResult.timedOut =>
        ⟨⟨false, some "Processing timeout"⟩, tr2, e2.tempAfter, e2.outAfter⟩
    | ProcResult.exit rc err =>
        if rc = 0 then convFinish tr2 e2.outAfter
        else
          ⟨⟨false, some ("Step 3 (PDBQT Fallback): " ++ err.trim)⟩, tr2,
            e2.tempAfter, e2.outAfter⟩

/-- Stages 2 and 3 of the converter pipeline, entered once Stage 1 has
produced a 3D structure. -/
def convAfter1 (env : Nat → CallEffect) (strategy : String) (k : Nat)
    (tr : List ExtCall) (temp out : Option Nat) : ConvOutput :=
  match convStep2 env (converterMinCmds strategy) k tr temp out with
  | Step2Res.abort o => o
  | Step2Res.cont k2 tr2 temp2 out2 => convStep3 env k2 tr2 temp2 out2

/-- Embedding of `convert_single_file` from `sdf_to_pdbqt_converter.py`
(lines 164-277).
`overwrite` stands for the module global `OVERWRITE_EXISTING`;
`outSize0`/`tempSize0` are the sizes of the target artifact and of the
scratch path before the invocation; `env k` is the effect of the k-th
external call.  Stage 1: `--gen3D` (timeout 180); on a non-zero exit or a
missing/empty scratch file, the `--build` fallback (timeout 300); a
`TimeoutExpired` of either propagates to line 274.  If both attempts
fail, line 214 returns the concatenated Step 1 diagnostics without
cleanup. -/
def convert_single_file (overwrite : Bool) (strategy : String)
    (outSize0 tempSize0 : Option Nat) (env : Nat → CallEffect) : ConvOutput :=
  if !overwrite && sizePos outSize0 then
    ⟨⟨true, some "Already exists (skipped)"⟩, [], tempSize0, outSize0⟩
  else
    let e0 := env 0
    let tr0 := [ExtCall.gen3D 180]
    match e0.res with
    | ProcResult.timedOut =>
        ⟨⟨false, some "Processing timeout"⟩, tr0, e0.tempAfter, e0.outAfter⟩
    | ProcResult.exit rc0 err0 =>
        if rc0 = 0 && sizePos e0.tempAfter then
          convAfter1 env strategy 1 tr0 e0.tempAfter e0.outAfter
        else
          let msg1 := "gen3D failed: " ++ stderrOrError err0 ++ ". "
          let e1 := env 1
          let tr1 := tr0 ++ [ExtCall.build 300]
          match e1.res with
          | ProcResult.timedOut =>
              ⟨⟨false, some "Processing timeout"⟩, tr1, e1.tempAfter, e1.outAfter⟩
          | ProcResult.exit rc1 err1 =>
              if rc1 = 0 && sizePos e1.tempAfter then
                convAfter1 env strategy 2 tr1 e1.tempAfter e1.outAfter
              else
                ⟨⟨false,
                  some ("Step 1 (3D gen): " ++ msg1 ++ "Build failed: " ++
                    stderrOrError err1 ++ ".")⟩,
                  tr1, e1.tempAfter, e1.outAfter⟩

/-- Observable outcome of one invocation of `worker.py`'s
`convert_single_file` (which returns only a boolean): the boolean, the
call trace, and the final scratch/target sizes. -/
structure WorkerOutput where
  success : Bool
  trace : List ExtCall
  tempFinal : Option Nat
  outFinal : Option Nat
deriving DecidableEq

/-- Intermediate result of `worker.py`'s minimization loop (lines 54-58):
either control continues, or some sub-step failed (non-zero exit or
timeout) and the function returns `False` — with the scratch file always
removed by the `finally` block of lines 77-79. -/
inductive WStep2Res where
  | cont (k : Nat) (trace : List ExtCall) (out : Option Nat)
  | fail (trace : List ExtCall) (out : Option Nat)
deriving DecidableEq

/-- The `for cmd in cmds` minimization loop of `worker.py` lines 54-58:
every sub-step runs with `timeout=300`; a non-zero exit returns `False`,
a `TimeoutExpired` is caught at line 71 and also returns `False`. -/
def workerStep2 (env : Nat → CallEffect) :
    List MinCmd → Nat → List ExtCall → Option Nat → WStep2Res
  | [], k, tr, out => WStep2Res.cont k tr out
  | c :: cs, k, tr, out =>
    let e := env k
    let tr2 := tr ++ [c.call]
    match e.res with
    | ProcResult.timedOut => WStep2Res.fail tr2 e.outAfter
    | ProcResult.exit rc _ =>
        if rc = 0 then workerStep2 env cs (k + 1) tr2 e.outAfter
        else WStep2Res.fail tr2 e.outAfter

/-- Steps 3 and 4 of `worker.py` (lines 44-69) plus the `finally`
cleanup: minimization, the `obabel` PDBQT conversion (timeout 120), and
the final non-empty-artifact check.  Every exit path past the
idempotency gate runs the `finally` block, so the scratch file is gone
(`tempFinal = none`). -/
def workerAfter1 (env : Nat → CallEffect) (strategy : String) (k : Nat)
    (tr : List ExtCall) (out : Option Nat) : WorkerOutput :=
  match workerStep2 env (workerMinCmds strategy) k tr out with
  | WStep2Res.fail tr2 out2 => ⟨false, tr2, none, out2⟩
  | WStep2Res.cont k2 tr2 out2 =>
    let e := env k2
    let tr3 := tr2 ++ [ExtCall.obabelPdbqt 120]
    match e.res with
    | ProcResult.timedOut => ⟨false, tr3, none, e.outAfter⟩
    | ProcResult.exit rc _ =>
        if rc = 0 then
          if sizePos e.outAfter then ⟨true, tr3, none, e.outAfter⟩
          else ⟨false, tr3, none, e.outAfter⟩
        else ⟨false, tr3, none, e.outAfter⟩

/-- Embedding of `convert_single_file` from `worker.py` (lines 13-81).  The idempotency
gate (lines 22-24) returns `True` before the `try` block, leaving the
scratch path untouched.  Stage 1: `--gen3D` (timeout 180), then on a
non-zero exit or missing/empty scratch file the `--build` fallback
(timeout 300) — acceptance of the fallback checks only that the scratch
file exists (line 40), not that it is non-empty.  A `TimeoutExpired`
anywhere inside the `try` is caught at line 71 and returns `False`; the
`finally` block (lines 77-79) removes the scratch file on every path
through the `try`. -/
def worker_convert_single_file (overwrite : Bool) (strategy : String)
    (outSize0 tempSize0 : Option Nat) (env : Nat → CallEffect) : WorkerOutput :=
  if !overwrite && sizePos outSize0 then
    ⟨true, [], tempSize0, outSize0⟩
  else
    let e0 := env 0
    let tr0 := [ExtCall.gen3D 180]
    match e0.res with
    | ProcResult.timedOut => ⟨false, tr0, none, e0.outAfter⟩
    | ProcResult.exit rc0 _ =>
        if rc0 = 0 && sizePos e0.tempAfter then
          workerAfter1 env strategy 1 tr0 e0.outAfter
        else
          let e1 := env 1
          let tr1 := tr0 ++ [ExtCall.build 300]
          match e1.res with
          | ProcResult.timedOut => ⟨false, tr1, none, e1.outAfter⟩
          | ProcResult.exit rc1 _ =>
              if rc1 = 0 && e1.tempAfter.isSome then
                workerAfter1 env strategy 2 tr1 e1.outAfter
              else ⟨false, tr1, none, e1.outAfter⟩

/-- Python `needle in hay` on strings. -/
def strContains (hay needle : String) : Bool :=
  hay.toList.tails.any (fun suf => needle.toList.isPrefixOf suf)

/-- Rolling counters of `progress_monitor`
(`completed`, `successful`, `failed`, `skipped`; lines 283-286). -/
structure MonState where
  completed : Nat
  successful : Nat
  failed : Nat
  skipped : Nat
deriving DecidableEq

/-- The counters' initial values (all zero). -/
def monInit : MonState := ⟨0, 0, 0, 0⟩

/-- Counter update for one received result (lines 294-305): `completed`
always increments; a successful result whose error message is non-empty
and contains "Already exists" counts as skipped, a successful result
otherwise as successful, a failure as failed. -/
def monStep (s : MonState) (r : PyResult) : MonState :=
  if r.success then
    match r.errorMsg with
    | some e =>
        if !e.isEmpty && strContains e "Already exists" then
          ⟨s.completed + 1, s.successful, s.failed, s.skipped + 1⟩
        else ⟨s.completed + 1, s.successful + 1, s.failed, s.skipped⟩
    | none => ⟨s.completed + 1, s.successful + 1, s.failed, s.skipped⟩
  else ⟨s.completed + 1, s.successful, s.failed + 1, s.skipped⟩

/-- One interaction of `progress_monitor` with the result queue: either a
result arrives within the 30-second window, or `queue.Empty` is raised
and the monitor evaluates `any(p.is_alive() for p in
mp.active_children())` (line 322).  The processes in
`mp.active_children()` are the batch's workers AND the `mp.Manager()`
server process started at line 381, which stays alive for the whole
batch — see `anyActiveChild`. -/
inductive MonEvent where
  | result (r : PyResult)
  | empty (anyAlive : Bool)
deriving DecidableEq

/-- The `while completed < total_files` loop of `progress_monitor`
(lines 292-326), run over the finite list of observed queue interactions.
A result updates the counters; `queue.Empty` with some active child
alive continues; `queue.Empty` with no active child at all logs the
incompleteness warning (line 324, the returned flag) and breaks.  Because
`mp.active_children()` includes the batch's live Manager server process
(see `anyActiveChild`), the break branch is unreachable while a batch is
running.  An exhausted event list while the loop still wants a result
models the cut-off of the observation window. -/
def progress_monitor : Nat → List MonEvent → MonState → MonState × Bool
  | _, [], s => (s, false)
  | total, ev :: rest, s =>
    if s.completed < total then
      match ev with
      | MonEvent.result r => progress_monitor total rest (monStep s r)
      | MonEvent.empty anyAlive =>
          if anyAlive then progress_monitor total rest s
          else (s, true)
    else (s, false)

/-- Embedding of `any(p.is_alive() for p in mp.active_children())`
(line 322) during a batch: `mp.active_children()` holds the batch's
worker processes together with the `mp.Manager()` server process created
at line 381; the manager's queues are in use for the whole
`progress_monitor` call, so the manager child is alive throughout the
batch, and the check is evaluated with `managerAlive = true`. -/
def anyActiveChild (workersAlive : List Bool) (managerAlive : Bool) : Bool :=
  workersAlive.any (fun b => b) || managerAlive

/-- One enqueued `RecordTask`: the idempotency-gate inputs, the strategy
tag, and the oracle for the record's external calls
(`process_batch_folder_parallel` lines 385-387; the round-robin
`process_id` only names the scratch file and is dropped). -/
structure RecordTask where
  overwrite : Bool
  strategy : String
  outSize0 : Option Nat
  tempSize0 : Option Nat
  env : Nat → CallEffect

/-- The `TaskResult` a worker produces for one task: the result component
of the converter pipeline's return tuple. -/
def runTask (t : RecordTask) : PyResult :=
  (convert_single_file t.overwrite t.strategy t.outSize0 t.tempSize0 t.env).result

/-- Embedding of `worker_process` (lines 343-357): pull tasks until the queue is
empty, convert each, and put each result on the result queue — one
`TaskResult` per pulled `RecordTask` (every exception inside
`convert_single_file` is already converted to a result tuple there). -/
def worker_run (ts : List RecordTask) : List PyResult :=
  ts.map runTask

/-- Embedding of `check_batch_completion` (lines 144-162), over the
observable inputs:
the number of `*.sdf` files in the batch folder and, when the mirrored
output folder exists, the number of `*.pdbqt` files in it.  Returns
`(is_completed, total_sdf, total_pdbqt)`; a missing output folder yields
`(False, 0, 0)`.  The Python float ratio is modelled as a rational. -/
def check_batch_completion (sdfCount : Nat) (outputFolder : Option Nat) :
    Bool × Nat × Nat :=
  match outputFolder with
  | none => (false, 0, 0)
  | some pdbqtCount =>
    let rate : ℚ := if 0 < sdfCount then (pdbqtCount : ℚ) / (sdfCount : ℚ) else 0
    (decide ((95 : ℚ) / 100 ≤ rate), sdfCount, pdbqtCount)

/-- The three batch states distinguished by the driver. -/
inductive BatchStatus where
  | complete
  | inProgress
  | unstarted
deriving DecidableEq

/-- Batch classification as performed by `main` (lines 484-491) on top of
`check_batch_completion`: `is_completed` means complete/skip; otherwise a
positive returned pdbqt count means partially completed (resuming);
otherwise the batch is unstarted. -/
def classify_batch (sdfCount : Nat) (outputFolder : Option Nat) : BatchStatus :=
  let r := check_batch_completion sdfCount outputFolder
  if r.1 then BatchStatus.complete
  else if 0 < r.2.2 then BatchStatus.inProgress
  else BatchStatus.unstarted

/-- One discovered batch folder as `main` sees it: its name, its
completion-check inputs, and the `(successful, failed, skipped)` counts
that `process_batch_folder_parallel` would report if the batch ran. -/
structure BatchSpec where
  name : String
  sdfCount : Nat
  outputFolder : Option Nat
  runCounts : Nat × Nat × Nat
deriving DecidableEq

/-- Observable outcome of one run of `main`: the process exit status, the
names of the batches actually processed, the names of the batches skipped
as already completed, and the accumulated totals. -/
structure MainResult where
  exitCode : Nat
  processed : List String
  skippedBatches : List String
  totals : Nat × Nat × Nat
deriving DecidableEq

/-- One iteration of the batch loop of `main` (lines 480-508): under
resume mode a batch classified completed is skipped, otherwise it is
processed and its counts accumulated.  The exit status is never
touched. -/
def mainStep (resumeMode : Bool) (acc : MainResult) (b : BatchSpec) : MainResult :=
  if resumeMode && (check_batch_completion b.sdfCount b.outputFolder).1 then
    { acc with skippedBatches := acc.skippedBatches ++ [b.name] }
  else
    { acc with
      processed := acc.processed ++ [b.name],
      totals := (acc.totals.1 + b.runCounts.1, acc.totals.2.1 + b.runCounts.2.1,
        acc.totals.2.2 + b.runCounts.2.2) }

/-- Embedding of `main` from `sdf_to_pdbqt_converter.py` (lines 403-527)
in the shipped
configuration (`TEST_MODE = False`, `PROCESS_ALL_BATCHES = True`): if the
OpenBabel check fails, `main` logs and returns before the batch loop
(lines 430-433); an empty batch list likewise returns early (lines
439-441); otherwise every batch is visited in order.  No path calls
`sys.exit`, so the interpreter ends with status 0 in every case. -/
def main_model (openbabelOk resumeMode : Bool) (batches : List BatchSpec) :
    MainResult :=
  if !openbabelOk then ⟨0, [], [], (0, 0, 0)⟩
  else if batches.isEmpty then ⟨0, [], [], (0, 0, 0)⟩
  else batches.foldl (mainStep resumeMode) ⟨0, [], [], (0, 0, 0)⟩

/-- Configuration constant `OVERWRITE_EXISTING = False` (line 66). -/
def OVERWRITE_EXISTING : Bool := false

/-- Configuration constant `MINIMIZATION_STRATEGY = "balanced"` (line 34). -/
def MINIMIZATION_STRATEGY : String := "balanced"

/-- A process outcome that is a completed run with exit status zero. -/
def exitOk : ProcResult → Bool
  | ProcResult.exit rc _ => decide (rc = 0)
  | ProcResult.timedOut => false

/-- The result tuple produced by the idempotency gate (line 176). -/
def skipResult : PyResult := ⟨true, some "Already exists (skipped)"⟩

/-- The call trace carried by a `Step2Res`. -/
def Step2Res.traceOf : Step2Res → List ExtCall
  | Step2Res.cont _ tr _ _ => tr
  | Step2Res.abort o => o.trace

/-- The call trace carried by a `WStep2Res`. -/
def WStep2Res.traceOf : WStep2Res → List ExtCall
  | WStep2Res.cont _ tr _ => tr
  | WStep2Res.fail tr _ => tr

/-- Oracle on which every external call hits its wall-clock timeout. -/
def timeoutEnv : Nat → CallEffect := fun _ => ⟨ProcResult.timedOut, none, none⟩

/-- Oracle on which every external call exits 1 after writing a
5-byte scratch file. -/
def failEnv : Nat → CallEffect := fun _ => ⟨ProcResult.exit 1 "boom", some 5, none⟩

/-- Oracle on which every call succeeds; the fourth call (the
`prepare_ligand4.py` step of the balanced converter path) also produces a
9-byte target artifact. -/
def okEnv : Nat → CallEffect := fun k =>
  if k = 3 then ⟨ProcResult.exit 0 "", some 5, some 9⟩
  else ⟨ProcResult.exit 0 "", some 5, none⟩

/-- Oracle on which the primary Stage-1 method exits 1 without writing
the scratch file, and every later call succeeds (the fifth call produces
the 9-byte target artifact of the balanced path after the fallback). -/
def fallbackEnv : Nat → CallEffect := fun k =>
  if k = 0 then ⟨ProcResult.exit 1 "primary boom", none, none⟩
  else if k = 4 then ⟨ProcResult.exit 0 "", some 5, some 9⟩
  else ⟨ProcResult.exit 0 "", some 5, none⟩

/-- Oracle on which every call succeeds and the second call produces the
9-byte target artifact (the converter path that runs no Stage-2
sub-step). -/
def c10Env : Nat → CallEffect := fun k =>
  if k = 1 then ⟨ProcResult.exit 0 "", some 5, some 9⟩
  else ⟨ProcResult.exit 0 "", some 5, none⟩

/-- A record task whose target artifact already exists with positive
size. -/
def sampleTask : RecordTask := ⟨false, "balanced", some 7, none, timeoutEnv⟩

theorem monStep_completed (s : MonState) (r : PyResult) :
    (monStep s r).completed = s.completed + 1 := by
  rcases r with ⟨suc, err⟩
  cases suc
  · rfl
  · cases err
    · rfl
    · rename_i e
      unfold monStep
      by_cases h : (!e.isEmpty && strContains e "Already exists") = true
      · simp [h]
      · simp [h]

theorem monStep_sum (s : MonState) (r : PyResult) :
    (monStep s r).successful + (monStep s r).failed + (monStep s r).skipped
      = s.successful + s.failed + s.skipped + 1 := by
  rcases r with ⟨suc, err⟩
  cases suc
  · show s.successful + (s.failed + 1) + s.skipped = _
    omega
  · cases err
    · show s.successful + 1 + s.failed + s.skipped = _
      omega
    · rename_i e
      unfold monStep
      by_cases h : (!e.isEmpty && strContains e "Already exists") = true
      · simp [h]
        omega
      · simp [h]
        omega

theorem foldl_monStep_completed (rs : List PyResult) :
    ∀ s : MonState, (rs.foldl monStep s).completed = s.completed + rs.length := by
  induction rs with
  | nil => intro s; simp
  | cons r rs ih =>
      intro s
      simp only [List.foldl_cons, List.length_cons]
      rw [ih, monStep_completed]
      omega

theorem foldl_monStep_sum (rs : List PyResult) :
    ∀ s : MonState,
      (rs.foldl monStep s).successful + (rs.foldl monStep s).failed +
        (rs.foldl monStep s).skipped
      = s.successful + s.failed + s.skipped + rs.length := by
  induction rs with
  | nil => intro s; simp
  | cons r rs ih =>
      intro s
      simp only [List.foldl_cons, List.length_cons]
      rw [ih, monStep_sum]
      omega

/-- When one result per expected task arrives, the monitor loop consumes
them all and ends without the incompleteness warning. -/
theorem progress_monitor_drain (rs : List PyResult) :
    ∀ (total : Nat) (s : MonState), s.completed + rs.length ≤ total →
      progress_monitor total (rs.map MonEvent.result) s
        = (rs.foldl monStep s, false) := by
  induction rs with
  | nil => intro total s _; rfl
  | cons r rs ih =>
      intro total s h
      have hlt : s.completed < total := by
        simp only [List.length_cons] at h; omega
      simp only [List.map_cons, progress_monitor, if_pos hlt, List.foldl_cons]
      exact ih total (monStep s r) (by rw [monStep_completed]; simpa [Nat.add_assoc, Nat.add_comm 1 rs.length] using h)

theorem convFinish_success_out (tr : List ExtCall) (out : Option Nat) :
    (convFinish tr out).result.success = true →
      sizePos (convFinish tr out).outFinal = true := by
  unfold convFinish
  split
  · rename_i h
    intro _
    exact h
  · intro h
    simp at h

theorem convFinish_temp (tr : List ExtCall) (out : Option Nat) :
    (convFinish tr out).tempFinal = none := by
  unfold convFinish
  split <;> rfl

theorem convFinish_trace (tr : List ExtCall) (out : Option Nat) :
    (convFinish tr out).trace = tr := by
  unfold convFinish
  split <;> rfl

theorem convStep3_success_out (env : Nat → CallEffect) (k : Nat)
    (tr : List ExtCall) (temp out : Option Nat) :
    (convStep3 env k tr temp out).result.success = true →
      sizePos (convStep3 env k tr temp out).outFinal = true := by
  unfold convStep3
  dsimp only
  split
  · exact convFinish_success_out _ _
  · cases hres : (env (k + 1)).res with
    | exit rc err =>
        dsimp only
        split
        · exact convFinish_success_out _ _
        · intro h
          simp at h
    | timedOut =>
        intro h
        simp at h

theorem convStep3_success_temp (env : Nat → CallEffect) (k : Nat)
    (tr : List ExtCall) (temp out : Option Nat) :
    (convStep3 env k tr temp out).result.success = true →
      (convStep3 env k tr temp out).tempFinal = none := by
  unfold convStep3
  dsimp only
  split
  · intro _
    exact convFinish_temp _ _
  · cases hres : (env (k + 1)).res with
    | exit rc err =>
        dsimp only
        split
        · intro _
          exact convFinish_temp _ _
        · intro h
          simp at h
    | timedOut =>
        intro h
        simp at h

theorem convStep3_trace (env : Nat → CallEffect) (k : Nat)
    (tr : List ExtCall) (temp out : Option Nat) :
    (convStep3 env k tr temp out).trace = tr ++ [ExtCall.prepLigand 120] ∨
      (convStep3 env k tr temp out).trace
        = tr ++ [ExtCall.prepLigand 120, ExtCall.obabelPdbqt 120] := by
  unfold convStep3
  dsimp only
  split
  · left
    exact convFinish_trace _ _
  · cases hres : (env (k + 1)).res with
    | exit rc err =>
        dsimp only
        split
        · right
          rw [convFinish_trace]
          simp
        · right
          simp
    | timedOut =>
        right
        simp

theorem convStep2_abort_success (env : Nat → CallEffect) :
    ∀ (cs : List MinCmd) (k : Nat) (tr : List ExtCall) (temp out : Option Nat)
      (o : ConvOutput),
      convStep2 env cs k tr temp out = Step2Res.abort o →
        o.result.success = false := by
  intro cs
  induction cs with
  | nil =>
      intro k tr temp out o h
      simp [convStep2] at h
  | cons c cs ih =>
      intro k tr temp out o h
      unfold convStep2 at h
      dsimp only at h
      cases hres : (env k).res with
      | exit rc err =>
          rw [hres] at h
          dsimp only at h
          split at h
          · exact ih _ _ _ _ _ h
          · cases h
            rfl
      | timedOut =>
          rw [hres] at h
          cases h
          rfl

theorem convStep2_trace (env : Nat → CallEffect) :
    ∀ (cs : List MinCmd) (k : Nat) (tr : List ExtCall) (temp out : Option Nat),
      ∃ rest, (convStep2 env cs k tr temp out).traceOf = tr ++ rest := by
  intro cs
  induction cs with
  | nil =>
      intro k tr temp out
      exact ⟨[], by simp [convStep2, Step2Res.traceOf]⟩
  | cons c cs ih =>
      intro k tr temp out
      unfold convStep2
      dsimp only
      cases hres : (env k).res with
      | exit rc err =>
          dsimp only
          split
          · rcases ih (k + 1) (tr ++ [c.call]) (env k).tempAfter (env k).outAfter
              with ⟨rest, hr⟩
            exact ⟨c.call :: rest, by rw [hr]; simp⟩
          · exact ⟨[c.call], by simp [Step2Res.traceOf]⟩
      | timedOut =>
          exact ⟨[c.call], by simp [Step2Res.traceOf]⟩

theorem convAfter1_success_out (env : Nat → CallEffect) (strategy : String)
    (k : Nat) (tr : List ExtCall) (temp out : Option Nat) :
    (convAfter1 env strategy k tr temp out).result.success = true →
      sizePos (convAfter1 env strategy k tr temp out).outFinal = true := by
  unfold convAfter1
  cases h2 : convStep2 env (converterMinCmds strategy) k tr temp out with
  | cont k2 tr2 temp2 out2 => exact convStep3_success_out _ _ _ _ _
  | abort o =>
      intro h
      rw [convStep2_abort_success env _ _ _ _ _ _ h2] at h
      cases h

theorem convAfter1_success_temp (env : Nat → CallEffect) (strategy : String)
    (k : Nat) (tr : List ExtCall) (temp out : Option Nat) :
    (convAfter1 env strategy k tr temp out).result.success = true →
      (convAfter1 env strategy k tr temp out).tempFinal = none := by
  unfold convAfter1
  cases h2 : convStep2 env (converterMinCmds strategy) k tr temp out with
  | cont k2 tr2 temp2 out2 => exact convStep3_success_temp _ _ _ _ _
  | abort o =>
      intro h
      rw [convStep2_abort_success env _ _ _ _ _ _ h2] at h
      cases h

theorem convAfter1_trace (env : Nat → CallEffect) (strategy : String)
    (k : Nat) (tr : List ExtCall) (temp out : Option Nat) :
    ∃ rest, (convAfter1 env strategy k tr temp out).trace = tr ++ rest := by
  unfold convAfter1
  cases h2 : convStep2 env (converterMinCmds strategy) k tr temp out with
  | cont k2 tr2 temp2 out2 =>
      have htr2 : tr2 = (convStep2 env (converterMinCmds strategy) k tr temp out).traceOf := by
        rw [h2]
        rfl
      rcases convStep2_trace env (converterMinCmds strategy) k tr temp out with ⟨r1, hr1⟩
      rcases convStep3_trace env k2 tr2 temp2 out2 with h3 | h3
      · exact ⟨r1 ++ [ExtCall.prepLigand 120], by
          rw [h3, htr2, hr1]
          simp⟩
      · exact ⟨r1 ++ [ExtCall.prepLigand 120, ExtCall.obabelPdbqt 120], by
          rw [h3, htr2, hr1]
          simp⟩
  | abort o =>
      have htr : o.trace = (convStep2 env (converterMinCmds strategy) k tr temp out).traceOf := by
        rw [h2]
        rfl
      rcases convStep2_trace env (converterMinCmds strategy) k tr temp out with ⟨r1, hr1⟩
      exact ⟨r1, by rw [htr, hr1]⟩

theorem convert_success_out (overwrite : Bool) (strategy : String)
    (out0 temp0 : Option Nat) (env : Nat → CallEffect) :
    (convert_single_file overwrite strategy out0 temp0 env).result.success = true →
      sizePos (convert_single_file overwrite strategy out0 temp0 env).outFinal = true := by
  unfold convert_single_file
  dsimp only
  split
  · rename_i hgate
    intro _
    simp only [Bool.and_eq_true] at hgate
    exact hgate.2
  · cases h0 : (env 0).res with
    | timedOut =>
        intro h
        simp at h
    | exit rc0 err0 =>
        dsimp only
        split
        · exact convAfter1_success_out _ _ _ _ _ _
        · cases h1 : (env 1).res with
          | timedOut =>
              intro h
              simp at h
          | exit rc1 err1 =>
              dsimp only
              split
              · exact convAfter1_success_out _ _ _ _ _ _
              · intro h
                simp at h

theorem convert_success_temp (overwrite : Bool) (strategy : String)
    (out0 temp0 : Option Nat) (env : Nat → CallEffect) :
    (convert_single_file overwrite strategy out0 temp0 env).result.success = true →
      (convert_single_file overwrite strategy out0 temp0 env).result.errorMsg = none →
      (convert_single_file overwrite strategy out0 temp0 env).tempFinal = none := by
  unfold convert_single_file
  dsimp only
  split
  · intro _ h
    simp at h
  · cases h0 : (env 0).res with
    | timedOut =>
        intro h
        simp at h
    | exit rc0 err0 =>
        dsimp only
        split
        · intro hs _
          exact convAfter1_success_temp _ _ _ _ _ _ hs
        · cases h1 : (env 1).res with
          | timedOut =>
              intro h
              simp at h
          | exit rc1 err1 =>
              dsimp only
              split
              · intro hs _
                exact convAfter1_success_temp _ _ _ _ _ _ hs
              · intro h
                simp at h

theorem workerAfter1_temp (env : Nat → CallEffect) (strategy : String)
    (k : Nat) (tr : List ExtCall) (out : Option Nat) :
    (workerAfter1 env strategy k tr out).tempFinal = none := by
  unfold workerAfter1
  cases h2 : workerStep2 env (workerMinCmds strategy) k tr out with
  | fail tr2 out2 => rfl
  | cont k2 tr2 out2 =>
      dsimp only
      cases hres : (env k2).res with
      | timedOut => rfl
      | exit rc err =>
          dsimp only
          split
          · split <;> rfl
          · rfl

theorem workerAfter1_success_out (env : Nat → CallEffect) (strategy : String)
    (k : Nat) (tr : List ExtCall) (out : Option Nat) :
    (workerAfter1 env strategy k tr out).success = true →
      sizePos (workerAfter1 env strategy k tr out).outFinal = true := by
  unfold workerAfter1
  cases h2 : workerStep2 env (workerMinCmds strategy) k tr out with
  | fail tr2 out2 =>
      intro h
      simp at h
  | cont k2 tr2 out2 =>
      dsimp only
      cases hres : (env k2).res with
      | timedOut =>
          intro h
          simp at h
      | exit rc err =>
          dsimp only
          split
          · split
            · rename_i hpos
              intro _
              exact hpos
            · intro h
              simp at h
          · intro h
            simp at h

theorem worker_success_out (overwrite : Bool) (strategy : String)
    (out0 temp0 : Option Nat) (env : Nat → CallEffect) :
    (worker_convert_single_file overwrite strategy out0 temp0 env).success = true →
      sizePos (worker_convert_single_file overwrite strategy out0 temp0 env).outFinal
        = true := by
  unfold worker_convert_single_file
  dsimp only
  split
  · rename_i hgate
    intro _
    simp only [Bool.and_eq_true] at hgate
    exact hgate.2
  · cases h0 : (env 0).res with
    | timedOut =>
        intro h
        simp at h
    | exit rc0 err0 =>
        dsimp only
        split
        · exact workerAfter1_success_out _ _ _ _ _
        · cases h1 : (env 1).res with
          | timedOut =>
              intro h
              simp at h
          | exit rc1 err1 =>
              dsimp only
              split
              · exact workerAfter1_success_out _ _ _ _ _
              · intro h
                simp at h

theorem worker_nogate_temp (overwrite : Bool) (strategy : String)
    (out0 temp0 : Option Nat) (env : Nat → CallEffect)
    (hgate : (!overwrite && sizePos out0) = false) :
    (worker_convert_single_file overwrite strategy out0 temp0 env).tempFinal
      = none := by
  unfold worker_convert_single_file
  rw [if_neg (by simp [hgate])]
  dsimp only
  cases h0 : (env 0).res with
  | timedOut => rfl
  | exit rc0 err0 =>
      dsimp only
      split
      · exact workerAfter1_temp _ _ _ _ _
      · cases h1 : (env 1).res with
        | timedOut => rfl
        | exit rc1 err1 =>
            dsimp only
            split
            · exact workerAfter1_temp _ _ _ _ _
            · rfl

theorem workerStep2_trace (env : Nat → CallEffect) :
    ∀ (cs : List MinCmd) (k : Nat) (tr : List ExtCall) (out : Option Nat),
      ∃ rest, (workerStep2 env cs k tr out).traceOf = tr ++ rest := by
  intro cs
  induction cs with
  | nil =>
      intro k tr out
      exact ⟨[], by simp [workerStep2, WStep2Res.traceOf]⟩
  | cons c cs ih =>
      intro k tr out
      unfold workerStep2
      dsimp only
      cases hres : (env k).res with
      | exit rc err =>
          dsimp only
          split
          · rcases ih (k + 1) (tr ++ [c.call]) (env k).outAfter with ⟨rest, hr⟩
            exact ⟨c.call :: rest, by rw [hr]; simp⟩
          · exact ⟨[c.call], by simp [WStep2Res.traceOf]⟩
      | timedOut => exact ⟨[c.call], by simp [WStep2Res.traceOf]⟩

theorem workerStep2_trace_cons (env : Nat → CallEffect) (c : MinCmd)
    (cs : List MinCmd) (k : Nat) (tr : List ExtCall) (out : Option Nat) :
    ∃ rest, (workerStep2 env (c :: cs) k tr out).traceOf = tr ++ c.call :: rest := by
  unfold workerStep2
  dsimp only
  cases hres : (env k).res with
  | exit rc err =>
      dsimp only
      split
      · rcases workerStep2_trace env cs (k + 1) (tr ++ [c.call]) (env k).outAfter
          with ⟨rest, hr⟩
        exact ⟨rest, by rw [hr]; simp⟩
      · exact ⟨[], by simp [WStep2Res.traceOf]⟩
  | timedOut => exact ⟨[], by simp [WStep2Res.traceOf]⟩

theorem workerAfter1_trace_head (env : Nat → CallEffect) (strategy : String)
    (k : Nat) (tr : List ExtCall) (out : Option Nat) (c : MinCmd) (cs : List MinCmd)
    (h : workerMinCmds strategy = c :: cs) :
    ∃ rest, (workerAfter1 env strategy k tr out).trace = tr ++ c.call :: rest := by
  unfold workerAfter1
  rw [h]
  cases h2 : workerStep2 env (c :: cs) k tr out with
  | fail tr2 out2 =>
      have htr := workerStep2_trace_cons env c cs k tr out
      rw [h2] at htr
      rcases htr with ⟨rest, hr⟩
      exact ⟨rest, hr⟩
  | cont k2 tr2 out2 =>
      have htr := workerStep2_trace_cons env c cs k tr out
      rw [h2] at htr
      dsimp only [WStep2Res.traceOf] at htr
      rcases htr with ⟨rest, hr⟩
      dsimp only
      rw [hr]
      cases hres : (env k2).res with
      | timedOut => exact ⟨rest ++ [ExtCall.obabelPdbqt 120], by simp⟩
      | exit rc err =>
          dsimp only
          split
          · split
            · exact ⟨rest ++ [ExtCall.obabelPdbqt 120], by simp⟩
            · exact ⟨rest ++ [ExtCall.obabelPdbqt 120], by simp⟩
          · exact ⟨rest ++ [ExtCall.obabelPdbqt 120], by simp⟩

theorem convert_skip (strategy : String) (out0 temp0 : Option Nat)
    (env : Nat → CallEffect) (h : sizePos out0 = true) :
    convert_single_file false strategy out0 temp0 env
      = ⟨skipResult, [], temp0, out0⟩ := by
  unfold convert_single_file
  rw [if_pos (by simp [h])]
  rfl

theorem monStep_skip (s : MonState) :
    monStep s skipResult
      = ⟨s.completed + 1, s.successful, s.failed, s.skipped + 1⟩ := rfl

theorem foldl_monStep_skips (rs : List PyResult) :
    ∀ s : MonState, (∀ r ∈ rs, r = skipResult) →
      rs.foldl monStep s
        = ⟨s.completed + rs.length, s.successful, s.failed,
            s.skipped + rs.length⟩ := by
  induction rs with
  | nil =>
      intro s _
      simp
  | cons r rs ih =>
      intro s h
      have hr : r = skipResult := h r (by simp)
      simp only [List.foldl_cons, List.length_cons]
      rw [hr, monStep_skip, ih _ (fun x hx => h x (by simp [hx]))]
      congr 1 <;> (dsimp only; omega)

theorem mainStep_exitCode (r : Bool) (acc : MainResult) (b : BatchSpec) :
    (mainStep r acc b).exitCode = acc.exitCode := by
  unfold mainStep
  split <;> rfl

theorem foldl_mainStep_exitCode (r : Bool) (bs : List BatchSpec) :
    ∀ acc, (bs.foldl (mainStep r) acc).exitCode = acc.exitCode := by
  induction bs with
  | nil => intro acc; rfl
  | cons b bs ih =>
      intro acc
      simp only [List.foldl_cons]
      rw [ih, mainStep_exitCode]

/-- C1 (counterexample): on the oracle where the primary Stage-1 call
(`--gen3D`, timeout 180) hits its wall-clock timeout, the converter
pipeline fails the record immediately and the `--build` fallback is never
attempted — refuting the claim that a Stage-1 timeout triggers the
fallback like a non-zero exit does. -/
theorem c1_counterexample :
    (convert_single_file false "balanced" none none timeoutEnv).result.success = false ∧
    ExtCall.build 300 ∉ (convert_single_file false "balanced" none none timeoutEnv).trace := by
  constructor
  · rfl
  · decide

/-- C1 (amended): when the primary Stage-1 call times out, the converter
pipeline returns a Failed result whose reason text is "Processing
timeout", with the primary call as the only external call issued (no
fallback attempt); at the reporting level this is an ordinary failed
record, distinguished from other stage failures only by the reason
text. -/
theorem c1_timeout_no_fallback (strategy : String) (out0 temp0 : Option Nat)
    (env : Nat → CallEffect) (hgate : sizePos out0 = false)
    (h0 : (env 0).res = ProcResult.timedOut) :
    convert_single_file OVERWRITE_EXISTING strategy out0 temp0 env
      = ⟨⟨false, some "Processing timeout"⟩, [ExtCall.gen3D 180],
          (env 0).tempAfter, (env 0).outAfter⟩ := by
  unfold convert_single_file OVERWRITE_EXISTING
  rw [if_neg (by simp [hgate])]
  dsimp only
  rw [h0]

theorem c1_timeout_no_fallback_witness :
    convert_single_file OVERWRITE_EXISTING "balanced" none none timeoutEnv
      = ⟨⟨false, some "Processing timeout"⟩, [ExtCall.gen3D 180], none, none⟩ :=
  c1_timeout_no_fallback "balanced" none none timeoutEnv rfl rfl

/-- C3 (counterexample): on the oracle where both Stage-1 attempts exit 1
after writing a 5-byte scratch file, the converter pipeline returns a
Failed result while the scratch file is still present — refuting the
claim that the scratch artifact is removed on every exit path. -/
theorem c3_counterexample :
    (convert_single_file false "balanced" none none failEnv).result.success = false ∧
    (convert_single_file false "balanced" none none failEnv).tempFinal = some 5 := by
  constructor <;> rfl

/-- C3 (amended): `worker.py` removes the scratch file on every exit path
past the idempotency gate (its `finally` block), while the converter's
pipeline guarantees removal only on invocations that complete Step 3 with
a Converted outcome; its stage-failure and timeout exits can leave the
scratch file behind. -/
theorem c3_cleanup (overwrite : Bool) (strategy : String) (out0 temp0 : Option Nat)
    (env : Nat → CallEffect) :
    ((!overwrite && sizePos out0) = false →
      (worker_convert_single_file overwrite strategy out0 temp0 env).tempFinal = none) ∧
    ((convert_single_file overwrite strategy out0 temp0 env).result.success = true →
      (convert_single_file overwrite strategy out0 temp0 env).result.errorMsg = none →
      (convert_single_file overwrite strategy out0 temp0 env).tempFinal = none) :=
  ⟨worker_nogate_temp overwrite strategy out0 temp0 env,
   convert_success_temp overwrite strategy out0 temp0 env⟩

theorem c3_cleanup_witness :
    (worker_convert_single_file true "balanced" (some 7) (some 3) timeoutEnv).tempFinal
        = none ∧
    (convert_single_file false "balanced" none none okEnv).tempFinal = none :=
  ⟨(c3_cleanup true "balanced" (some 7) (some 3) timeoutEnv).1 rfl,
   (c3_cleanup false "balanced" none none okEnv).2 rfl rfl⟩

/-- C4: with the shipped `OVERWRITE_EXISTING = False` and a target
artifact already present with positive size, the converter pipeline
returns the Skipped result at once — no external call is issued, the
scratch path is untouched and the target artifact is unchanged; and a
batch whose records all have such artifacts reports 100% Skipped
(skipped equals the record count, zero successful, zero failed). -/
theorem c4_idempotency_gate (strategy : String) (out0 temp0 : Option Nat)
    (env : Nat → CallEffect) (h : sizePos out0 = true) :
    (convert_single_file OVERWRITE_EXISTING strategy out0 temp0 env
        = ⟨skipResult, [], temp0, out0⟩) ∧
    (∀ tasks : List RecordTask,
      (∀ t ∈ tasks, t.overwrite = false ∧ sizePos t.outSize0 = true) →
      progress_monitor tasks.length ((worker_run tasks).map MonEvent.result) monInit
        = (⟨tasks.length, 0, 0, tasks.length⟩, false)) := by
  constructor
  · exact convert_skip strategy out0 temp0 env h
  · intro tasks ht
    have hres : ∀ r ∈ worker_run tasks, r = skipResult := by
      intro r hr
      rcases List.mem_map.mp hr with ⟨t, htmem, hrt⟩
      rcases ht t htmem with ⟨ho, hs⟩
      rw [← hrt]
      unfold runTask
      rw [ho, convert_skip t.strategy t.outSize0 t.tempSize0 t.env hs]
    have hlen : (worker_run tasks).length = tasks.length := List.length_map _ _
    rw [progress_monitor_drain _ _ _ (by simp [monInit, hlen]),
      foldl_monStep_skips _ _ hres]
    simp [monInit, hlen]

theorem c4_idempotency_gate_witness :
    (convert_single_file OVERWRITE_EXISTING "balanced" (some 7) none timeoutEnv
        = ⟨skipResult, [], none, some 7⟩) ∧
    progress_monitor 1 ((worker_run [sampleTask]).map MonEvent.result) monInit
      = (⟨1, 0, 0, 1⟩, false) := by
  have h := c4_idempotency_gate "balanced" (some 7) none timeoutEnv rfl
  exact ⟨h.1, h.2 [sampleTask]
    (by
      intro t ht
      rw [List.mem_singleton.mp ht]
      exact ⟨rfl, rfl⟩)⟩

/-- C6 (counterexample): when the OpenBabel check fails, `main` returns
before the batch loop but the process exit status is 0, not non-zero —
refuting the claim that a fatal setup failure produces a non-zero exit
code. -/
theorem c6_counterexample :
    main_model false true [⟨"batch_0001", 3, none, (1, 1, 1)⟩]
      = ⟨0, [], [], (0, 0, 0)⟩ := rfl

/-- C6 (amended): a failed OpenBabel setup check aborts the run before
any batch is processed, but the script never calls `sys.exit`, so the
process exit status is 0 on every path — exit code 0 does not indicate
full success. -/
theorem c6_setup_abort (resumeMode okFlag : Bool) (batches : List BatchSpec) :
    (main_model false resumeMode batches).processed = [] ∧
    (main_model okFlag resumeMode batches).exitCode = 0 := by
  constructor
  · rfl
  · cases okFlag
    · rfl
    · by_cases hb : batches.isEmpty
      · simp [main_model, hb]
      · simp only [main_model, Bool.not_true, Bool.false_eq_true, if_false, hb,
          if_true]
        exact foldl_mainStep_exitCode resumeMode batches _

/-- C8: both per-record pipelines return a successful (Converted or
Skipped) outcome only when the declared target artifact exists with
positive size; whenever the target is absent or empty at the end, the
outcome is Failed, never Converted. -/
theorem c8_final_check (overwrite : Bool) (strategy : String) (out0 temp0 : Option Nat)
    (env : Nat → CallEffect) :
    ((convert_single_file overwrite strategy out0 temp0 env).result.success = true →
      sizePos (convert_single_file overwrite strategy out0 temp0 env).outFinal = true) ∧
    (sizePos (convert_single_file overwrite strategy out0 temp0 env).outFinal = false →
      (convert_single_file overwrite strategy out0 temp0 env).result.success = false) ∧
    ((worker_convert_single_file overwrite strategy out0 temp0 env).success = true →
      sizePos (worker_convert_single_file overwrite strategy out0 temp0 env).outFinal
        = true) := by
  refine ⟨convert_success_out _ _ _ _ _, ?_, worker_success_out _ _ _ _ _⟩
  intro h
  cases hs : (convert_single_file overwrite strategy out0 temp0 env).result.success
  · rfl
  · rw [convert_success_out _ _ _ _ _ hs] at h
    cases h

theorem c8_final_check_witness :
    sizePos (convert_single_file false "balanced" none none okEnv).outFinal = true :=
  (c8_final_check false "balanced" none none okEnv).1 rfl

/-- C9 (code bug): the stall safeguard is unreachable.  The break at
line 325 is guarded by `not any(p.is_alive() for p in
mp.active_children())`, but the Manager server process is an active
child for the batch's whole duration, so the liveness check is true on
every `queue.Empty` poll even when every worker has died.  Fed any
number of such polls with results still outstanding, the monitor
consumes them all — counters unchanged, no warning, no early
termination — i.e. it waits unboundedly instead of breaking with an
incomplete summary as the claim states. -/
theorem c9_stall_unreachable (total n : Nat) (s : MonState)
    (workersAlive : List Bool) (h : s.completed < total) :
    anyActiveChild workersAlive true = true ∧
    progress_monitor total
        (List.replicate n (MonEvent.empty (anyActiveChild workersAlive true))) s
      = (s, false) := by
  have hmgr : anyActiveChild workersAlive true = true := by
    simp [anyActiveChild]
  refine ⟨hmgr, ?_⟩
  rw [hmgr]
  induction n with
  | zero => rfl
  | succ n ih =>
      simp only [List.replicate_succ, progress_monitor, if_pos h]
      exact ih

theorem c9_stall_unreachable_witness :
    anyActiveChild [false, false] true = true ∧
    progress_monitor 3
        (List.replicate 5 (MonEvent.empty (anyActiveChild [false, false] true)))
        monInit
      = (monInit, false) :=
  c9_stall_unreachable 3 5 monInit [false, false] (by decide)

/-- C2: for a batch of N enqueued record tasks executed by any W ≥ 1
workers (each worker converting its share of the queue and pushing one
result per task, in any interleaving), the monitor receives exactly N
results, drains them all, and its counters satisfy
successful + failed + skipped = N. -/
theorem c2_conservation (tasks : List RecordTask) (W : Nat) (hW : 1 ≤ W)
    (distrib : List (List RecordTask)) (hlen : distrib.length = W)
    (hperm : distrib.flatten.Perm tasks)
    (rs : List PyResult) (hrs : rs.Perm (distrib.map worker_run).flatten) :
    rs.length = tasks.length ∧
    progress_monitor tasks.length (rs.map MonEvent.result) monInit
      = (rs.foldl monStep monInit, false) ∧
    (rs.foldl monStep monInit).successful + (rs.foldl monStep monInit).failed +
      (rs.foldl monStep monInit).skipped = tasks.length := by
  have hlen1 : rs.length = tasks.length := by
    rw [hrs.length_eq]
    calc ((distrib.map worker_run).flatten).length
        = ((distrib.flatten).map runTask).length := by
          rw [List.map_flatten]
          rfl
      _ = (distrib.flatten).length := List.length_map _ _
      _ = tasks.length := hperm.length_eq
  refine ⟨hlen1, ?_, ?_⟩
  · exact progress_monitor_drain rs tasks.length monInit (by simp [monInit, hlen1])
  · rw [foldl_monStep_sum rs monInit, hlen1]
    simp [monInit]

theorem c2_conservation_witness :
    ((([[sampleTask]].map worker_run).flatten).foldl monStep monInit).successful +
      ((([[sampleTask]].map worker_run).flatten).foldl monStep monInit).failed +
      ((([[sampleTask]].map worker_run).flatten).foldl monStep monInit).skipped
      = [sampleTask].length :=
  (c2_conservation [sampleTask] 1 (by decide) [[sampleTask]] rfl (List.Perm.refl _)
    (([[sampleTask]].map worker_run).flatten) (List.Perm.refl _)).2.2

/-- C5 (counterexample): a batch with zero input records but one output
artifact is classified as partially completed (the driver resumes it),
not as Unstarted — refuting the part of the claim that says an
inputCount-0 batch is classified Unstarted. -/
theorem c5_counterexample :
    classify_batch 0 (some 1) = BatchStatus.inProgress ∧
    classify_batch 0 (some 1) ≠ BatchStatus.unstarted := by
  have hcheck : check_batch_completion 0 (some 1) = (false, 0, 1) := by
    unfold check_batch_completion
    norm_num
  have hcl : classify_batch 0 (some 1) = BatchStatus.inProgress := by
    unfold classify_batch
    rw [hcheck]
    rfl
  rw [hcl]
  exact ⟨rfl, by decide⟩

/-- C5 (amended): classification is Complete exactly when the output
count over the input count (taken as 0 for a missing output folder, and
with the zero-denominator convention giving ratio 0) is at least 0.95;
a batch with inputCount = 0 is never Complete and classifies Unstarted
when its output count is also 0 (it classifies partially-completed when
stray outputs exist); no division error occurs in any case. -/
theorem c5_classification (sdfCount : Nat) (outputFolder : Option Nat) :
    (classify_batch sdfCount outputFolder = BatchStatus.complete ↔
      (95 : ℚ) / 100 ≤ ((outputFolder.getD 0 : Nat) : ℚ) / (sdfCount : ℚ)) ∧
    (sdfCount = 0 → classify_batch sdfCount outputFolder ≠ BatchStatus.complete) ∧
    (sdfCount = 0 → outputFolder.getD 0 = 0 →
      classify_batch sdfCount outputFolder = BatchStatus.unstarted) := by
  rcases outputFolder with _ | p
  · have hcl : classify_batch sdfCount none = BatchStatus.unstarted := rfl
    refine ⟨?_, fun _ => ?_, fun _ _ => hcl⟩
    · rw [hcl]
      constructor
      · intro h
        cases h
      · intro h
        simp only [Option.getD_none, Nat.cast_zero, zero_div] at h
        norm_num at h
    · rw [hcl]
      decide
  · by_cases hs : 0 < sdfCount
    · have hrate : check_batch_completion sdfCount (some p)
          = (decide ((95 : ℚ) / 100 ≤ (p : ℚ) / (sdfCount : ℚ)), sdfCount, p) := by
        simp [check_batch_completion, hs]
      refine ⟨?_, fun h0 => absurd h0 (by omega), fun h0 => absurd h0 (by omega)⟩
      unfold classify_batch
      rw [hrate]
      dsimp only [Option.getD_some]
      by_cases hc : (95 : ℚ) / 100 ≤ (p : ℚ) / (sdfCount : ℚ)
      · simp [hc]
      · rw [decide_eq_false hc]
        simp only [Bool.false_eq_true, if_false]
        constructor
        · intro h
          by_cases hp : 0 < p
          · rw [if_pos hp] at h
            simp at h
          · rw [if_neg hp] at h
            simp at h
        · intro h
          exact absurd h hc
    · have hs0 : sdfCount = 0 := by omega
      subst hs0
      have hcheck : check_batch_completion 0 (some p) = (false, 0, p) := by
        unfold check_batch_completion
        norm_num
      have hncomp : classify_batch 0 (some p) ≠ BatchStatus.complete := by
        unfold classify_batch
        rw [hcheck]
        dsimp only
        rw [if_neg (by simp)]
        by_cases hp : 0 < p
        · rw [if_pos hp]
          decide
        · rw [if_neg hp]
          decide
      refine ⟨?_, fun _ => hncomp, fun _ hp => ?_⟩
      · constructor
        · intro h
          exact absurd h hncomp
        · intro h
          simp only [Option.getD_some, Nat.cast_zero, div_zero] at h
          norm_num at h
      · unfold classify_batch
        rw [hcheck]
        dsimp only [Option.getD_some] at hp
        subst hp
        rfl

theorem c5_classification_witness :
    classify_batch 0 (some 0) = BatchStatus.unstarted :=
  (c5_classification 0 (some 0)).2.2 rfl rfl

theorem convStep2_ok_cons (env : Nat → CallEffect) (c : MinCmd) (cs : List MinCmd)
    (k : Nat) (tr : List ExtCall) (temp out : Option Nat)
    (rc : Int) (err : String) (h : (env k).res = ProcResult.exit rc err)
    (hrc : rc = 0) :
    convStep2 env (c :: cs) k tr temp out
      = convStep2 env cs (k + 1) (tr ++ [c.call]) (env k).tempAfter (env k).outAfter := by
  conv_lhs => unfold convStep2
  dsimp only
  rw [h]
  dsimp only
  rw [if_pos hrc]

theorem convStep3_prep_ok (env : Nat → CallEffect) (k : Nat) (tr : List ExtCall)
    (temp out : Option Nat) (rc : Int) (err : String)
    (h : (env k).res = ProcResult.exit rc err) (hrc : rc = 0)
    (hout : sizePos (env k).outAfter = true) :
    convStep3 env k tr temp out
      = ⟨⟨true, none⟩, tr ++ [ExtCall.prepLigand 120], none, (env k).outAfter⟩ := by
  unfold convStep3
  dsimp only
  rw [h]
  dsimp only
  rw [if_pos (by simp [hrc, hout])]
  unfold convFinish
  rw [if_pos hout]

theorem convert_fallback_timeout (strategy : String) (out0 temp0 : Option Nat)
    (env : Nat → CallEffect) (hgate : sizePos out0 = false)
    (rc0 : Int) (err0 : String) (h0 : (env 0).res = ProcResult.exit rc0 err0)
    (hfail0 : (decide (rc0 = 0) && sizePos (env 0).tempAfter) = false)
    (h1 : (env 1).res = ProcResult.timedOut) :
    convert_single_file false strategy out0 temp0 env
      = ⟨⟨false, some "Processing timeout"⟩,
          [ExtCall.gen3D 180, ExtCall.build 300],
          (env 1).tempAfter, (env 1).outAfter⟩ := by
  unfold convert_single_file
  rw [if_neg (by simp [hgate])]
  dsimp only
  rw [h0]
  dsimp only
  rw [if_neg (by simp [hfail0])]
  rw [h1]
  rfl

theorem convert_fallback_ok (strategy : String) (out0 temp0 : Option Nat)
    (env : Nat → CallEffect) (hgate : sizePos out0 = false)
    (rc0 : Int) (err0 : String) (h0 : (env 0).res = ProcResult.exit rc0 err0)
    (hfail0 : (decide (rc0 = 0) && sizePos (env 0).tempAfter) = false)
    (rc1 : Int) (err1 : String) (h1 : (env 1).res = ProcResult.exit rc1 err1)
    (hok1 : (decide (rc1 = 0) && sizePos (env 1).tempAfter) = true) :
    convert_single_file false strategy out0 temp0 env
      = convAfter1 env strategy 2 [ExtCall.gen3D 180, ExtCall.build 300]
          (env 1).tempAfter (env 1).outAfter := by
  unfold convert_single_file
  rw [if_neg (by simp [hgate])]
  dsimp only
  rw [h0]
  dsimp only
  rw [if_neg (by simp [hfail0])]
  rw [h1]
  dsimp only
  rw [if_pos hok1]
  rfl

theorem convert_fallback_bothfail (strategy : String) (out0 temp0 : Option Nat)
    (env : Nat → CallEffect) (hgate : sizePos out0 = false)
    (rc0 : Int) (err0 : String) (h0 : (env 0).res = ProcResult.exit rc0 err0)
    (hfail0 : (decide (rc0 = 0) && sizePos (env 0).tempAfter) = false)
    (rc1 : Int) (err1 : String) (h1 : (env 1).res = ProcResult.exit rc1 err1)
    (hfail1 : (decide (rc1 = 0) && sizePos (env 1).tempAfter) = false) :
    convert_single_file false strategy out0 temp0 env
      = ⟨⟨false, some ("Step 1 (3D gen): "
            ++ ("gen3D failed: " ++ stderrOrError err0 ++ ". ")
            ++ "Build failed: " ++ stderrOrError err1 ++ ".")⟩,
          [ExtCall.gen3D 180, ExtCall.build 300],
          (env 1).tempAfter, (env 1).outAfter⟩ := by
  unfold convert_single_file
  rw [if_neg (by simp [hgate])]
  dsimp only
  rw [h0]
  dsimp only
  rw [if_neg (by simp [hfail0])]
  rw [h1]
  dsimp only
  rw [if_neg (by simp [hfail1])]
  rfl

theorem convert_primary_ok (strategy : String) (out0 temp0 : Option Nat)
    (env : Nat → CallEffect) (hgate : sizePos out0 = false)
    (rc0 : Int) (err0 : String) (h0 : (env 0).res = ProcResult.exit rc0 err0)
    (hrc0 : rc0 = 0) (htemp : sizePos (env 0).tempAfter = true) :
    convert_single_file false strategy out0 temp0 env
      = convAfter1 env strategy 1 [ExtCall.gen3D 180]
          (env 0).tempAfter (env 0).outAfter := by
  unfold convert_single_file
  rw [if_neg (by simp [hgate])]
  dsimp only
  rw [h0]
  dsimp only
  rw [if_pos (by simp [hrc0, htemp])]

theorem worker_primary_ok (strategy : String) (out0 temp0 : Option Nat)
    (env : Nat → CallEffect) (hgate : sizePos out0 = false)
    (rc0 : Int) (err0 : String) (h0 : (env 0).res = ProcResult.exit rc0 err0)
    (hrc0 : rc0 = 0) (htemp : sizePos (env 0).tempAfter = true) :
    worker_convert_single_file false strategy out0 temp0 env
      = workerAfter1 env strategy 1 [ExtCall.gen3D 180] (env 0).outAfter := by
  unfold worker_convert_single_file
  rw [if_neg (by simp [hgate])]
  dsimp only
  rw [h0]
  dsimp only
  rw [if_pos (by simp [hrc0, htemp])]

/-- C7: in the shipped configuration, when the primary Stage-1 call
completes with a non-zero exit or leaves the scratch file missing/empty,
the converter issues the `--build` fallback with a longer timeout budget
(300 s against the primary's 180 s); if the fallback succeeds and every
later stage succeeds the record's result is Converted (success with no
error message), and if the fallback also fails the pipeline returns
Failed at Step 1 with the concatenated diagnostics of both attempts and
issues no further external call. -/
theorem c7_stage1_fallback (out0 temp0 : Option Nat) (env : Nat → CallEffect)
    (hgate : sizePos out0 = false)
    (rc0 : Int) (err0 : String) (h0 : (env 0).res = ProcResult.exit rc0 err0)
    (hfail0 : (decide (rc0 = 0) && sizePos (env 0).tempAfter) = false) :
    ((convert_single_file OVERWRITE_EXISTING MINIMIZATION_STRATEGY out0 temp0
        env).trace.take 2 = [ExtCall.gen3D 180, ExtCall.build 300]) ∧
    (180 < 300) ∧
    (∀ err1 : String, (env 1).res = ProcResult.exit 0 err1 →
      sizePos (env 1).tempAfter = true →
      exitOk (env 2).res = true → exitOk (env 3).res = true →
      exitOk (env 4).res = true → sizePos (env 4).outAfter = true →
      (convert_single_file OVERWRITE_EXISTING MINIMIZATION_STRATEGY out0 temp0
          env).result = ⟨true, none⟩) ∧
    (∀ (rc1 : Int) (err1 : String), (env 1).res = ProcResult.exit rc1 err1 →
      (decide (rc1 = 0) && sizePos (env 1).tempAfter) = false →
      convert_single_file OVERWRITE_EXISTING MINIMIZATION_STRATEGY out0 temp0 env
        = ⟨⟨false, some ("Step 1 (3D gen): "
              ++ ("gen3D failed: " ++ stderrOrError err0 ++ ". ")
              ++ "Build failed: " ++ stderrOrError err1 ++ ".")⟩,
            [ExtCall.gen3D 180, ExtCall.build 300],
            (env 1).tempAfter, (env 1).outAfter⟩) := by
  refine ⟨?_, by omega, ?_, ?_⟩
  · unfold OVERWRITE_EXISTING MINIMIZATION_STRATEGY
    cases h1 : (env 1).res with
    | timedOut =>
        rw [convert_fallback_timeout "balanced" out0 temp0 env hgate rc0 err0 h0
          hfail0 h1]
        rfl
    | exit rc1 err1 =>
        cases hok : (decide (rc1 = 0) && sizePos (env 1).tempAfter) with
        | true =>
            rw [convert_fallback_ok "balanced" out0 temp0 env hgate rc0 err0 h0
              hfail0 rc1 err1 h1 hok]
            rcases convAfter1_trace env "balanced" 2
                [ExtCall.gen3D 180, ExtCall.build 300] (env 1).tempAfter
                (env 1).outAfter with ⟨rest, hr⟩
            rw [hr]
            rfl
        | false =>
            rw [convert_fallback_bothfail "balanced" out0 temp0 env hgate rc0 err0 h0
              hfail0 rc1 err1 h1 hok]
            rfl
  · intro err1 h1 htmp1 h2 h3 h4 hout4
    unfold OVERWRITE_EXISTING MINIMIZATION_STRATEGY
    rw [convert_fallback_ok "balanced" out0 temp0 env hgate rc0 err0 h0 hfail0
      0 err1 h1 (by simp [htmp1])]
    unfold convAfter1
    rw [show converterMinCmds "balanced"
        = [⟨true, 500, 180, "Step 2a (SD): "⟩, ⟨false, 1000, 300, "Step 2b (CG): "⟩]
      from rfl]
    cases hr2 : (env 2).res with
    | timedOut =>
        rw [hr2] at h2
        simp [exitOk] at h2
    | exit rc2 e2 =>
        rw [hr2] at h2
        simp only [exitOk, decide_eq_true_eq] at h2
        cases hr3 : (env 3).res with
        | timedOut =>
            rw [hr3] at h3
            simp [exitOk] at h3
        | exit rc3 e3 =>
            rw [hr3] at h3
            simp only [exitOk, decide_eq_true_eq] at h3
            rw [convStep2_ok_cons env _ _ 2 _ _ _ rc2 e2 hr2 h2,
              convStep2_ok_cons env _ _ 3 _ _ _ rc3 e3 hr3 h3]
            cases hr4 : (env 4).res with
            | timedOut =>
                rw [hr4] at h4
                simp [exitOk] at h4
            | exit rc4 e4 =>
                rw [hr4] at h4
                simp only [exitOk, decide_eq_true_eq] at h4
                dsimp only [convStep2]
                rw [convStep3_prep_ok env 4 _ _ _ rc4 e4 hr4 h4 hout4]
  · intro rc1 err1 h1 hfail1
    unfold OVERWRITE_EXISTING MINIMIZATION_STRATEGY
    exact convert_fallback_bothfail "balanced" out0 temp0 env hgate rc0 err0 h0
      hfail0 rc1 err1 h1 hfail1

theorem c7_stage1_fallback_witness :
    (convert_single_file OVERWRITE_EXISTING MINIMIZATION_STRATEGY none none
        fallbackEnv).result = ⟨true, none⟩ :=
  (c7_stage1_fallback none none fallbackEnv rfl 1 "primary boom" rfl rfl).2.2.1
    "" rfl rfl rfl rfl rfl rfl

/-- C10: for any strategy tag outside fast/balanced/thorough, the
converter selects no Stage-2 sub-step: after a successful Stage 1 it
issues the Step-3 `prepare_ligand4.py` call directly, no `obminimize`
call ever appears in its trace, and the record can still end Converted;
`worker.py` instead treats such a tag as "balanced" and, after a
successful Stage 1, always starts the balanced minimization sequence
(its trace continues with the 500-step `-sd` sub-step). -/
theorem c10_strategy_dispatch (strategy : String)
    (hf : strategy ≠ "fast") (hb : strategy ≠ "balanced") (ht : strategy ≠ "thorough")
    (out0 temp0 : Option Nat) (env : Nat → CallEffect)
    (hgate : sizePos out0 = false)
    (err0 : String) (h0 : (env 0).res = ProcResult.exit 0 err0)
    (htemp : sizePos (env 0).tempAfter = true) :
    converterMinCmds strategy = [] ∧
    workerMinCmds strategy = workerMinCmds "balanced" ∧
    ((convert_single_file false strategy out0 temp0 env).trace.take 2
        = [ExtCall.gen3D 180, ExtCall.prepLigand 120]) ∧
    (∀ n t : Nat,
      ExtCall.minimizeSD n t ∉ (convert_single_file false strategy out0 temp0 env).trace ∧
      ExtCall.minimizeCG n t ∉ (convert_single_file false strategy out0 temp0 env).trace) ∧
    (∀ err1 : String, (env 1).res = ProcResult.exit 0 err1 →
      sizePos (env 1).outAfter = true →
      (convert_single_file false strategy out0 temp0 env).result = ⟨true, none⟩) ∧
    ((worker_convert_single_file false strategy out0 temp0 env).trace.take 2
        = [ExtCall.gen3D 180, ExtCall.minimizeSD 500 300]) := by
  have hcm : converterMinCmds strategy = [] := by
    unfold converterMinCmds
    rw [if_neg hf, if_neg hb, if_neg ht]
  have hwm : workerMinCmds strategy = [⟨true, 500, 300, ""⟩, ⟨false, 1000, 300, ""⟩] := by
    unfold workerMinCmds
    rw [if_neg hf, if_neg ht]
  have hconv := convert_primary_ok strategy out0 temp0 env hgate 0 err0 h0 rfl htemp
  have hafter : convAfter1 env strategy 1 [ExtCall.gen3D 180]
      (env 0).tempAfter (env 0).outAfter
      = convStep3 env 1 [ExtCall.gen3D 180] (env 0).tempAfter (env 0).outAfter := by
    unfold convAfter1
    rw [hcm]
    rfl
  refine ⟨hcm, by rw [hwm]; rfl, ?_, ?_, ?_, ?_⟩
  · rw [hconv, hafter]
    rcases convStep3_trace env 1 [ExtCall.gen3D 180] (env 0).tempAfter (env 0).outAfter
      with htr | htr <;> rw [htr] <;> rfl
  · intro n t
    rw [hconv, hafter]
    rcases convStep3_trace env 1 [ExtCall.gen3D 180] (env 0).tempAfter (env 0).outAfter
      with htr | htr <;> rw [htr] <;> constructor <;> simp
  · intro err1 h1e hout1
    rw [hconv, hafter, convStep3_prep_ok env 1 _ _ _ 0 err1 h1e rfl hout1]
  · have hworker := worker_primary_ok strategy out0 temp0 env hgate 0 err0 h0 rfl htemp
    rw [hworker]
    rcases workerAfter1_trace_head env strategy 1 [ExtCall.gen3D 180] (env 0).outAfter
        ⟨true, 500, 300, ""⟩ [⟨false, 1000, 300, ""⟩] hwm with ⟨rest, hr⟩
    rw [hr]
    rfl

theorem c10_strategy_dispatch_witness :
    (convert_single_file false "custom" none none c10Env).result = ⟨true, none⟩ :=
  (c10_strategy_dispatch "custom" (by decide) (by decide) (by decide) none none
    c10Env rfl "" rfl rfl).2.2.2.2.1 "" rfl rfl

end SDF2PDBQT
